import Mathlib

/-!
Shallow embedding of the contact-management API core
(contact store search/filter/pagination, contact service use cases,
weather client and weather advisor), together with theorems settling
the specification claims about it.

Conventions of the embedding:
* JavaScript strings are modelled as Lean `String` / `List Char`.
* JavaScript numbers that the code only ever compares and branches on
  (temperatures) are modelled as `ℚ` (every IEEE double that is not a
  NaN/∞ is a rational, and `<=`, `>=` on doubles agree with the rational
  order); integer quantities (page, limit, counts, timestamps) are
  modelled as `Nat`/`Int` with exact arithmetic, and the single spot
  where a JavaScript float non-finite value can arise
  (`Math.ceil(totalItems / limit)` with `limit = 0`) is modelled
  explicitly by the `JsCeil` type below.
* Timestamps (`createdAt`, `updatedAt`) are `Nat` (milliseconds).
* `null`/`undefined`-able values are `Option`.
* Asynchronous database state is passed explicitly: repository
  operations take and return a `Store` value.
-/

/- ===================================================================
   Character folding and substring / SQL LIKE machinery
   =================================================================== -/

/-- Case folding used both for JavaScript `toLowerCase()` (in the weather
advisor) and for PostgreSQL `ILIKE` (in the contact search).  It maps
ASCII `A`-`Z` to lower case and the two non-ASCII upper-case letters
that can fold *into* a character occurring in any keyword or search
pattern of this code base (`Ç` and `Ã`, for the keyword
"precipitação").  For every other character both JavaScript and
PostgreSQL folding leave the character outside the alphabet of the
compared keywords, so this fold is extensionally adequate for all the
containment checks performed by the code. -/
def foldLower (c : Char) : Char :=
  if 65 ≤ c.toNat ∧ c.toNat ≤ 90 then Char.ofNat (c.toNat + 32)
  else if c = 'Ç' then 'ç'
  else if c = 'Ã' then 'ã'
  else c

/-- Fold a whole string to lower case, as a character list. -/
def foldStr (s : String) : List Char := s.data.map foldLower

/-- Boolean prefix test on character lists. -/
def isPrefixL : List Char → List Char → Bool
  | [], _ => true
  | _ :: _, [] => false
  | a :: xs, b :: ys => a == b && isPrefixL xs ys

/-- Boolean containment test: `inclL sub s` holds iff `sub` occurs as a
contiguous run inside `s`.  This is JavaScript `String.includes`
restricted to character lists. -/
def inclL (sub : List Char) : List Char → Bool
  | [] => isPrefixL sub []
  | c :: t => isPrefixL sub (c :: t) || inclL sub t

/-- All suffixes of a list, longest first (the list itself down to `[]`). -/
def suffixes : List Char → List (List Char)
  | [] => [[]]
  | c :: t => (c :: t) :: suffixes t

/-- SQL `LIKE` pattern matching (no escape character): `%` matches any
run of characters (i.e. the rest of the pattern matches some suffix),
`_` matches exactly one character, every other pattern character
matches itself.  `likeMatch p s` decides whether the pattern `p`
matches the whole of `s`. -/
def likeMatch : List Char → List Char → Bool
  | [], s => s.isEmpty
  | c :: p, s =>
    if c == '%' then (suffixes s).any (fun t => likeMatch p t)
    else
      match s with
      | [] => false
      | d :: t => (c == '_' || c == d) && likeMatch p t

/-- A character is a SQL `LIKE` metacharacter (`%`, `_`) or the
default escape character (`\`). -/
def isLikeMeta (c : Char) : Bool :=
  c == '%' || c == '_' || c == '\\'

/-- A search term is metacharacter-free: it contains no `%`, `_` or
`\`, so that `ILIKE '%term%'` degenerates to case-insensitive
substring containment. -/
def noMeta (s : String) : Bool := !(s.data.any isLikeMeta)

/- ===================================================================
   Weather advisor (HgBrasilWeatherService.generateWeatherSuggestion)
   =================================================================== -/

namespace HgBrasilWeatherService

def chocolateQuente : String := "Ofereça um chocolate quente ao seu contato..."

def sorvete : String := "Convide seu contato para tomar um sorvete"

def praia : String := "Convide seu contato para ir à praia com esse calor!"

def filme : String := "Convide seu contato para ver um filme"

def arLivre : String := "Convide seu contato para fazer alguma atividade ao ar livre"

/-- `condition.toLowerCase()` of the source, as a character list. -/
def normalized (condition : String) : List Char := foldStr condition

def kwChuva : String := "chuva"

def kwChuvisco : String := "chuvisco"

def kwGaroa : String := "garoa"

def kwPrecipitacao : String := "precipitação"

def kwLimpo : String := "limpo"

def kwSol : String := "sol"

def kwEnsolarado : String := "ensolarado"

def kwClaro : String := "claro"

/-- The four rainy keywords tested by the source, in source order. -/
def rainyKeywords : List String := [kwChuva, kwChuvisco, kwGaroa, kwPrecipitacao]

/-- The four sunny keywords tested by the source, in source order. -/
def sunnyKeywords : List String := [kwLimpo, kwSol, kwEnsolarado, kwClaro]

/-- `isRainy` of the source: the lower-cased condition includes one of
the rainy keywords. -/
def isRainy (n : List Char) : Bool :=
  rainyKeywords.any (fun k => inclL k.data n)

/-- `isSunny` of the source: the lower-cased condition includes one of
the sunny keywords. -/
def isSunny (n : List Char) : Bool :=
  sunnyKeywords.any (fun k => inclL k.data n)

/-- Embedding of `HgBrasilWeatherService.generateWeatherSuggestion`,
with the source's branch structure kept verbatim. -/
def generateWeatherSuggestion (temp : ℚ) (condition : String) : String :=
  let n := normalized condition
  if temp ≤ 18 then
    chocolateQuente
  else if 30 ≤ temp then
    if isRainy n then sorvete
    else if isSunny n then praia
    else sorvete
  else if isRainy n then filme
  else if isSunny n then arLivre
  else arLivre

end HgBrasilWeatherService

open HgBrasilWeatherService

/-- Decision table as the specification words it (C1): cold branch for
`t ≤ 18`; for `t ≥ 30` ice cream when rainy, beach when sunny and not
rainy, ice cream when unclassified; for `18 < t < 30` movie when rainy
and outdoor activity when sunny or unclassified.  This definition
follows the specification text and is compared against the embedding
of the source. -/
def specSuggestionTable (temp : ℚ) (condition : String) : String :=
  let n := HgBrasilWeatherService.normalized condition
  if temp ≤ 18 then
    HgBrasilWeatherService.chocolateQuente
  else if 30 ≤ temp then
    if HgBrasilWeatherService.isRainy n then HgBrasilWeatherService.sorvete
    else if HgBrasilWeatherService.isSunny n && !HgBrasilWeatherService.isRainy n then
      HgBrasilWeatherService.praia
    else HgBrasilWeatherService.sorvete
  else if HgBrasilWeatherService.isRainy n then HgBrasilWeatherService.filme
  else HgBrasilWeatherService.arLivre

/-- C1: for every temperature and condition string the Weather Advisor
suggestion coincides with the decision table stated by the
specification, with both boundaries inclusive (`t = 18` cold,
`t = 30` hot). -/
theorem weather_advisor_matches_spec_table (temp : ℚ) (condition : String) :
    HgBrasilWeatherService.generateWeatherSuggestion temp condition =
      specSuggestionTable temp condition := by
  unfold HgBrasilWeatherService.generateWeatherSuggestion specSuggestionTable
  rcases Bool.eq_false_or_eq_true
      (HgBrasilWeatherService.isRainy (HgBrasilWeatherService.normalized condition)) with hr | hr <;>
  rcases Bool.eq_false_or_eq_true
      (HgBrasilWeatherService.isSunny (HgBrasilWeatherService.normalized condition)) with hs | hs <;>
  split_ifs <;> simp_all

/-- C1 witness: evaluation of both sides on concrete inputs on each
side of the two boundaries. -/
theorem weather_advisor_matches_spec_table_witness :
    HgBrasilWeatherService.generateWeatherSuggestion 18 "chuva" =
        specSuggestionTable 18 "chuva" ∧
      HgBrasilWeatherService.generateWeatherSuggestion 30 "limpo" =
        specSuggestionTable 30 "limpo" ∧
      HgBrasilWeatherService.generateWeatherSuggestion 25 "garoa" =
        specSuggestionTable 25 "garoa" :=
  ⟨weather_advisor_matches_spec_table 18 "chuva",
   weather_advisor_matches_spec_table 30 "limpo",
   weather_advisor_matches_spec_table 25 "garoa"⟩

/-- The English word "rain", used as a weather-condition input. -/
def condRain : String := "rain"

/-- A mixed-case Portuguese rainy condition. -/
def condChuvaUpper : String := "CHUVA forte"

/-- C8 counterexample: the condition string "rain" contains "rain", yet
the advisor does not classify it as rainy (the source only tests the
Portuguese keywords), and at temperature 25 it returns the
outdoor-activity suggestion, not the movie suggestion the claim
requires. -/
theorem english_rain_not_classified_rainy :
    inclL condRain.data (HgBrasilWeatherService.normalized condRain) = true ∧
      HgBrasilWeatherService.isRainy (HgBrasilWeatherService.normalized condRain) = false ∧
      HgBrasilWeatherService.generateWeatherSuggestion 25 condRain =
        HgBrasilWeatherService.arLivre ∧
      HgBrasilWeatherService.arLivre ≠ HgBrasilWeatherService.filme := by
  decide

/-- C8 (amended): a condition containing, case-insensitively, any of
"chuva", "chuvisco", "garoa", "precipitação" is classified rainy, and
for every `18 < t < 30` such a condition makes the advisor return the
movie suggestion. -/
theorem rainy_keyword_gives_movie (t : ℚ) (cond : String)
    (h1 : 18 < t) (h2 : t < 30)
    (hc : inclL kwChuva.data (HgBrasilWeatherService.normalized cond) = true ∨
          inclL kwChuvisco.data (HgBrasilWeatherService.normalized cond) = true ∨
          inclL kwGaroa.data (HgBrasilWeatherService.normalized cond) = true ∨
          inclL kwPrecipitacao.data (HgBrasilWeatherService.normalized cond) = true) :
    HgBrasilWeatherService.isRainy (HgBrasilWeatherService.normalized cond) = true ∧
      HgBrasilWeatherService.generateWeatherSuggestion t cond =
        HgBrasilWeatherService.filme := by
  have hr : HgBrasilWeatherService.isRainy (HgBrasilWeatherService.normalized cond) = true := by
    simp only [HgBrasilWeatherService.isRainy, HgBrasilWeatherService.rainyKeywords,
      List.any_eq_true, List.mem_cons, List.not_mem_nil]
    rcases hc with h | h | h | h
    · exact ⟨kwChuva, by simp, h⟩
    · exact ⟨kwChuvisco, by simp, h⟩
    · exact ⟨kwGaroa, by simp, h⟩
    · exact ⟨kwPrecipitacao, by simp, h⟩
  have hn18 : ¬ (t ≤ 18) := by linarith
  have hn30 : ¬ ((30 : ℚ) ≤ t) := by linarith
  refine ⟨hr, ?_⟩
  simp [HgBrasilWeatherService.generateWeatherSuggestion, hn18, hn30, hr]

/-- C8 witness: at temperature 25 with the mixed-case condition
"CHUVA forte" the hypotheses hold and the advisor returns the movie
suggestion. -/
theorem rainy_keyword_gives_movie_witness :
    HgBrasilWeatherService.isRainy (HgBrasilWeatherService.normalized condChuvaUpper) = true ∧
      HgBrasilWeatherService.generateWeatherSuggestion 25 condChuvaUpper =
        HgBrasilWeatherService.filme :=
  rainy_keyword_gives_movie 25 condChuvaUpper (by decide) (by decide)
    (Or.inl (by decide))

/- ===================================================================
   Weather client (HgBrasilWeatherService.getWeatherData)
   =================================================================== -/

namespace HgBrasilWeatherService

/-- The `results` object of a parsed provider response body. -/
structure ProviderResults where
  temp : ℚ
  condition_code : String
  description : String
  currently : String
  city : String
deriving DecidableEq

/-- A parsed provider response body: the validity flag and the
optional `results` object. -/
structure ProviderBody where
  valid_key : Bool
  results : Option ProviderResults
deriving DecidableEq

/-- The observable behaviour of the upstream HTTP call for one
request: either the fetch itself fails (network failure or timeout:
the promise rejects), or a response arrives with a success flag, a
status code, and a body that either parses to a `ProviderBody` or
fails to parse (`none` models `response.json()` rejecting). -/
inductive Upstream where
  | fetchFailure
  | response (ok : Bool) (status : Nat) (body : Option ProviderBody)
deriving DecidableEq

/-- The three typed error kinds of the weather client. -/
inductive WeatherErrorKind where
  | WEATHER_API_ERROR
  | CITY_NOT_FOUND
  | WEATHER_SERVICE_UNAVAILABLE
deriving DecidableEq

/-- A successful weather reading (`WeatherSuggestion` in the source). -/
structure Reading where
  temp : ℚ
  condition_code : String
  condition : String
  currently : String
  city : String
  suggestion : String
deriving DecidableEq

/-- Result type of the weather client: a reading or a typed error. -/
inductive WeatherOutcome where
  | reading (r : Reading)
  | err (kind : WeatherErrorKind) (message : String)
deriving DecidableEq

def msgApiError (status : Nat) : String :=
  "Erro na API do tempo: " ++ toString status

def msgCityNotFound : String := "Cidade não encontrada na API do tempo"

def msgUnavailable : String := "Serviço de clima temporariamente indisponível"

/-- Embedding of `HgBrasilWeatherService.getWeatherData`.  The
try/catch of the source is modelled by the explicit failure
constructors of `Upstream`: a rejected fetch and a body that fails to
parse land in the catch block, as does the `TypeError` raised when
`valid_key` is true but `results` is absent (the source then reads
`data.results.temp` off `undefined`), all returning
`WEATHER_SERVICE_UNAVAILABLE`. -/
def getWeatherData (u : Upstream) : WeatherOutcome :=
  match u with
  | .fetchFailure => .err .WEATHER_SERVICE_UNAVAILABLE msgUnavailable
  | .response ok status body =>
    if !ok then .err .WEATHER_API_ERROR (msgApiError status)
    else
      match body with
      | none => .err .WEATHER_SERVICE_UNAVAILABLE msgUnavailable
      | some data =>
        if !data.valid_key && data.results.isNone then
          .err .CITY_NOT_FOUND msgCityNotFound
        else
          match data.results with
          | none => .err .WEATHER_SERVICE_UNAVAILABLE msgUnavailable
          | some r =>
            .reading { temp := r.temp, condition_code := r.condition_code,
                       condition := r.description, currently := r.currently,
                       city := r.city,
                       suggestion := generateWeatherSuggestion r.temp r.description }

end HgBrasilWeatherService

/-- C3: for every upstream behaviour the weather client resolves to a
reading or to exactly one of the three typed error kinds
(exception-freedom is captured by totality of the embedding over all
upstream behaviours, including rejected promises), and the failure
mapping holds: an unsuccessful HTTP status yields WEATHER_API_ERROR
with the status code embedded in the message; a body that parses and
carries the provider's no-valid-result signal yields CITY_NOT_FOUND;
a network failure or a body that fails to parse yields
WEATHER_SERVICE_UNAVAILABLE. -/
theorem getWeatherData_total_and_mapping :
    (∀ u : Upstream, (∃ r, getWeatherData u = .reading r) ∨
        ∃ k m, getWeatherData u = .err k m) ∧
      (∀ (status : Nat) (body : Option ProviderBody),
        getWeatherData (.response false status body) =
          .err .WEATHER_API_ERROR (msgApiError status)) ∧
      (∀ status : Nat,
        getWeatherData (.response true status (some ⟨false, none⟩)) =
          .err .CITY_NOT_FOUND msgCityNotFound) ∧
      getWeatherData .fetchFailure =
        .err .WEATHER_SERVICE_UNAVAILABLE msgUnavailable ∧
      (∀ status : Nat,
        getWeatherData (.response true status none) =
          .err .WEATHER_SERVICE_UNAVAILABLE msgUnavailable) := by
  refine ⟨?_, fun _ _ => rfl, fun _ => rfl, rfl, fun _ => rfl⟩
  intro u
  match h : getWeatherData u with
  | .reading r => exact Or.inl ⟨r, rfl⟩
  | .err k m => exact Or.inr ⟨k, m, rfl⟩

/- ===================================================================
   Contact data model and store
   =================================================================== -/

/-- A row of the `contatos` table (`ContactRow` in the source).
Timestamps are naturals (milliseconds). -/
structure ContactRow where
  id : String
  nome : String
  email : String
  codigoZip : String
  endereco : String
  numero : String
  bairro : String
  cidade : String
  estado : String
  complemento : Option String
  ativo : Bool
  createdAt : Nat
  updatedAt : Nat
deriving DecidableEq

/-- A row of the `telefones` table. -/
structure PhoneRow where
  id : String
  numero : String
  contatoId : String
deriving DecidableEq

/-- The relational store: both tables. -/
structure Store where
  contatos : List ContactRow
  telefones : List PhoneRow
deriving DecidableEq

/-- The empty string (JavaScript falsy). -/
def emptyStr : String := ""

namespace DrizzleContactRepository

/-- `findById`: the row with the given id (primary key), if any. -/
def findById (store : Store) (id : String) : Option ContactRow :=
  store.contatos.find? (fun c => c.id == id)

/-- Phones owned by a contact (the `with \x7b telefones \x7d` joins). -/
def phonesOf (store : Store) (id : String) : List PhoneRow :=
  store.telefones.filter (fun t => t.contatoId == id)

/-- The pattern built by the source for a search term. -/
def likePattern (search : String) : List Char :=
  '%' :: (search.data ++ ['%'])

/-- PostgreSQL `ILIKE` on a non-null text column: both sides
case-folded, then `LIKE`-matched. -/
def ilike (v : String) (pat : List Char) : Bool :=
  likeMatch (pat.map foldLower) (v.data.map foldLower)

/-- `ILIKE` on a nullable column: SQL `NULL ILIKE p` is `NULL`, which
is falsy inside the `OR`, so a null complement never matches. -/
def ilikeOpt (v : Option String) (pat : List Char) : Bool :=
  match v with
  | none => false
  | some s => ilike s pat

/-- The OR-clause of the search: the eight contact columns and the
phone-number EXISTS subquery, in source order. -/
def matchesSearch (store : Store) (c : ContactRow) (search : String) : Bool :=
  let pat := likePattern search
  ilike c.nome pat || ilike c.email pat || ilike c.endereco pat ||
    ilike c.bairro pat || ilike c.cidade pat || ilike c.estado pat ||
    ilike c.codigoZip pat || ilikeOpt c.complemento pat ||
    store.telefones.any (fun t => t.contatoId == c.id && ilike t.numero pat)

/-- The active-state condition of `list`: applied only when a boolean
was supplied (`typeof ativo === "boolean"`). -/
def ativoCond (ativo : Option Bool) (c : ContactRow) : Bool :=
  match ativo with
  | some b => c.ativo == b
  | none => true

/-- The WHERE clause assembled by `list`: the active-state condition
AND the search OR-clause (only when `search` is truthy, i.e. present
and non-empty). -/
def rowCondition (store : Store) (search : Option String) (ativo : Option Bool)
    (c : ContactRow) : Bool :=
  ativoCond ativo c &&
  (match search with
   | some s => if s == emptyStr then true else matchesSearch store c s
   | none => true)

/-- Stable insertion of a contact into a list sorted by `createdAt`. -/
def insertByCreatedAt (c : ContactRow) : List ContactRow → List ContactRow
  | [] => [c]
  | d :: t =>
    if c.createdAt < d.createdAt then c :: d :: t
    else d :: insertByCreatedAt c t

/-- `ORDER BY createdAt` ascending as a stable sort, so that rows with
equal timestamps keep insertion order. -/
def orderByCreatedAt : List ContactRow → List ContactRow
  | [] => []
  | c :: t => insertByCreatedAt c (orderByCreatedAt t)

/-- Embedding of `DrizzleContactRepository.list`: the count query and
the page query share the same WHERE clause; the rows are ordered by
`createdAt` and the window from `offset` of length `limit` is
returned; `totalItems` counts the filtered set before pagination.
PostgreSQL raises an error on a negative OFFSET, modelled by `none`. -/
def list (store : Store) (search : Option String) (ativo : Option Bool)
    (limit : Nat) (offset : Int) : Option (List ContactRow × Nat) :=
  if offset < 0 then none
  else
    let filtered :=
      (orderByCreatedAt store.contatos).filter (rowCondition store search ativo)
    some ((filtered.drop offset.toNat).take limit, filtered.length)

/-- Embedding of `DrizzleContactRepository.softDelete`: sets
`ativo := false` and refreshes `updatedAt` on the row matching the id;
reports whether any row matched. -/
def softDelete (store : Store) (now : Nat) (id : String) : Bool × Store :=
  (store.contatos.any (fun c => c.id == id),
   { store with contatos := store.contatos.map (fun c =>
       if c.id == id then { c with ativo := false, updatedAt := now } else c) })

end DrizzleContactRepository

/- ===================================================================
   Contact service
   =================================================================== -/

/-- The extended value of the JavaScript expression
`Math.ceil(totalItems / limit)`: finite, `Infinity`, or `NaN`. -/
inductive JsCeil where
  | fin (n : Nat)
  | posInf
  | nan
deriving DecidableEq

/-- JavaScript `Math.ceil(totalItems / limit)` for natural inputs:
IEEE division by zero gives `Infinity` (or `NaN` for `0/0`) and
`Math.ceil` preserves both; otherwise the exact ceiling. -/
def totalPagesJS (totalItems limit : Nat) : JsCeil :=
  if limit = 0 then
    if totalItems = 0 then .nan else .posInf
  else .fin ((totalItems + limit - 1) / limit)

/-- JavaScript `page < totalPages` on the extended value: every finite
number is below `Infinity`, and no comparison with `NaN` holds. -/
def ltJsCeil (page : Nat) : JsCeil → Bool
  | .fin n => page < n
  | .posInf => true
  | .nan => false

namespace ContactService

structure Pagination where
  currentPage : Nat
  totalPages : JsCeil
  totalItems : Nat
  itemsPerPage : Nat
  hasNextPage : Bool
  hasPrevPage : Bool
deriving DecidableEq

structure ListResponse where
  contacts : List ContactRow
  pagination : Pagination
deriving DecidableEq

/-- Parameters of `ContactService.list` (already validated by the HTTP
layer: `page` and `limit` are naturals, `ativo` a string). -/
structure ListParams where
  search : Option String
  ativo : Option String
  page : Option Nat
  limit : Option Nat
deriving DecidableEq

/-- `Math.min(requestedLimit, 100)` of the source. -/
def capLimit (requestedLimit : Nat) : Nat := min requestedLimit 100

/-- `(page - 1) * limit` of the source, in exact integer arithmetic. -/
def listOffset (page limit : Nat) : Int := ((page : Int) - 1) * (limit : Int)

def strTrue : String := "true"

/-- Embedding of `ContactService.list`: pagination normalization
(default page 1, default limit 10, limit capped at 100), the
`ativo === "true"` translation of the string filter, delegation to the
repository, and assembly of the pagination metadata. -/
def list (store : Store) (params : ListParams) : Option ListResponse :=
  let page := params.page.getD 1
  let limit := capLimit (params.limit.getD 10)
  let offset := listOffset page limit
  let ativo : Option Bool := params.ativo.map (fun s => s == strTrue)
  match DrizzleContactRepository.list store params.search ativo limit offset with
  | none => none
  | some (items, totalItems) =>
    some { contacts := items,
           pagination :=
             { currentPage := page,
               totalPages := totalPagesJS totalItems limit,
               totalItems := totalItems,
               itemsPerPage := limit,
               hasNextPage := ltJsCeil page (totalPagesJS totalItems limit),
               hasPrevPage := decide (1 < page) } }

/-- Result of `ContactService.getWithWeather`. -/
inductive GetWithWeatherResult where
  | contactNotFound
  | ok (contact : ContactRow) (telefones : List PhoneRow) (weather : WeatherOutcome)
deriving DecidableEq

/-- Embedding of `ContactService.getWithWeather`.  The weather
provider is passed as a function from city names to outcomes; the
second component of the result records whether it was invoked. -/
def getWithWeather (store : Store) (weatherProvider : String → WeatherOutcome)
    (id : String) : GetWithWeatherResult × Bool :=
  match DrizzleContactRepository.findById store id with
  | none => (.contactNotFound, false)
  | some contact =>
    if !contact.ativo then (.contactNotFound, false)
    else
      let weather := weatherProvider contact.cidade
      (.ok contact (DrizzleContactRepository.phonesOf store contact.id) weather, true)

/-- Result of `ContactService.softDelete`. -/
inductive SoftDeleteResult where
  | contactNotFound
  | alreadyInactive
  | success (contactId : String)
deriving DecidableEq

/-- Embedding of `ContactService.softDelete`: existence check,
distinct already-inactive report, then delegation to the repository. -/
def softDelete (store : Store) (now : Nat) (id : String) : SoftDeleteResult × Store :=
  match DrizzleContactRepository.findById store id with
  | none => (.contactNotFound, store)
  | some existing =>
    if !existing.ativo then (.alreadyInactive, store)
    else
      let r := DrizzleContactRepository.softDelete store now id
      if r.1 then (.success id, r.2) else (.contactNotFound, r.2)

end ContactService

/-- The query normalization performed by the HTTP layer
(`buildListContacts`): the zod query schema defaults `ativo` to the
string "true" when the query string does not carry it, then calls
`ContactService.list`. -/
def listEndpoint (store : Store) (params : ContactService.ListParams) :
    Option ContactService.ListResponse :=
  ContactService.list store
    { params with ativo := some (params.ativo.getD ContactService.strTrue) }

theorem toNat_ofNat_of_isValidChar {n : Nat} (h : n.isValidChar) :
    (Char.ofNat n).toNat = n := by
  rw [Char.ofNat, dif_pos h]
  rfl

/-- Case folding never produces a `LIKE` metacharacter from a
non-metacharacter. -/
theorem isLikeMeta_foldLower {c : Char} (h : isLikeMeta c = false) :
    isLikeMeta (foldLower c) = false := by
  unfold foldLower
  split_ifs with h1 h2 h3
  · obtain ⟨ha, hz⟩ := h1
    have hv : (c.toNat + 32).isValidChar := Or.inl (by omega)
    have ht : (Char.ofNat (c.toNat + 32)).toNat = c.toNat + 32 :=
      toNat_ofNat_of_isValidChar hv
    simp only [isLikeMeta, Bool.or_eq_false_iff, beq_eq_false_iff_ne, ne_eq]
    refine ⟨⟨?_, ?_⟩, ?_⟩ <;> intro he <;>
      have h5 := congrArg Char.toNat he <;> rw [ht] at h5
    · rw [show ('%').toNat = 37 from rfl] at h5; omega
    · rw [show ('_').toNat = 95 from rfl] at h5; omega
    · rw [show ('\\').toNat = 92 from rfl] at h5; omega
  · decide
  · decide
  · exact h

/-- A lone `%` pattern matches everything. -/
theorem likeMatch_pct_all (s : List Char) : likeMatch ['%'] s = true := by
  induction s with
  | nil => rfl
  | cons c t ih => simp [likeMatch, suffixes] at ih ⊢; exact ih

/-- A metacharacter-free pattern followed by `%` is a prefix test. -/
theorem likeMatch_append_pct (p : List Char)
    (hp : ∀ c ∈ p, (c == '%') = false ∧ (c == '_') = false) :
    ∀ s, likeMatch (p ++ ['%']) s = isPrefixL p s := by
  induction p with
  | nil => intro s; simpa [isPrefixL] using likeMatch_pct_all s
  | cons c p ih =>
    intro s
    have hc := hp c (List.mem_cons_self c p)
    have hp' : ∀ d ∈ p, (d == '%') = false ∧ (d == '_') = false :=
      fun d hd => hp d (List.mem_cons_of_mem c hd)
    cases s with
    | nil => simp [likeMatch, isPrefixL, hc.1]
    | cons d t => simp [likeMatch, isPrefixL, hc.1, hc.2, ih hp' t]

/-- A metacharacter-free pattern wrapped in `%…%` is a substring
(containment) test. -/
theorem likeMatch_pct_wrap (p : List Char)
    (hp : ∀ c ∈ p, (c == '%') = false ∧ (c == '_') = false) :
    ∀ s, likeMatch ('%' :: (p ++ ['%'])) s = inclL p s := by
  have key : ∀ s, (suffixes s).any (fun t => likeMatch (p ++ ['%']) t) = inclL p s := by
    intro s
    induction s with
    | nil => simp [suffixes, inclL, likeMatch_append_pct p hp]
    | cons d t ih => simp [suffixes, inclL, likeMatch_append_pct p hp] at ih ⊢; rw [ih]
  intro s
  simpa [likeMatch] using key s

/-- For a metacharacter-free search term, `ILIKE '%term%'` is exactly
case-insensitive substring containment. -/
theorem ilike_eq_inclL (v term : String) (hm : noMeta term = true) :
    DrizzleContactRepository.ilike v (DrizzleContactRepository.likePattern term) =
      inclL (foldStr term) (foldStr v) := by
  unfold DrizzleContactRepository.ilike DrizzleContactRepository.likePattern
  have hpct : foldLower '%' = '%' := by decide
  have hmap : (('%' :: (term.data ++ ['%'])).map foldLower)
      = '%' :: ((term.data.map foldLower) ++ ['%']) := by
    simp [hpct]
  rw [hmap]
  have hall : ∀ c ∈ term.data, ¬ (isLikeMeta c = true) :=
    List.any_eq_false.mp (by simpa [noMeta] using hm)
  apply likeMatch_pct_wrap
  intro c hc
  obtain ⟨c0, hc0, rfl⟩ := List.mem_map.mp hc
  have h0 : isLikeMeta c0 = false := by
    simpa using hall c0 hc0
  have h1 := isLikeMeta_foldLower h0
  simp only [isLikeMeta, Bool.or_eq_false_iff] at h1
  exact h1.1

/-- The empty pattern is contained in every list. -/
theorem inclL_nil (l : List Char) : inclL [] l = true := by
  cases l <;> rfl

/- ===================================================================
   C2: search semantics
   =================================================================== -/

/-- The search semantics as the specification words it: the term is a
case-insensitive substring of the name, email, street, neighborhood,
city, state or zip code, or of a non-null complement (a null
complement never matches), or of the number of at least one phone
owned by the contact. -/
def specContactMatches (store : Store) (c : ContactRow) (term : String) : Bool :=
  let t := foldStr term
  inclL t (foldStr c.nome) || inclL t (foldStr c.email) ||
    inclL t (foldStr c.endereco) || inclL t (foldStr c.bairro) ||
    inclL t (foldStr c.cidade) || inclL t (foldStr c.estado) ||
    inclL t (foldStr c.codigoZip) ||
    (match c.complemento with
     | none => false
     | some v => inclL t (foldStr v)) ||
    store.telefones.any (fun p => p.contatoId == c.id && inclL t (foldStr p.numero))

/-- The contacts the specification says a search should return, in
listing order: the active-state filter conjoined with the substring
disjunction. -/
def specFilter (store : Store) (term : String) (ativo : Option Bool) : List ContactRow :=
  (DrizzleContactRepository.orderByCreatedAt store.contatos).filter
    (fun c => DrizzleContactRepository.ativoCond ativo c && specContactMatches store c term)

/-- Pointwise: for a metacharacter-free term the WHERE clause built by
the repository agrees with the specification's substring semantics. -/
theorem rowCondition_eq_spec (store : Store) (term : String) (ativo : Option Bool)
    (hm : noMeta term = true) (c : ContactRow) :
    DrizzleContactRepository.rowCondition store (some term) ativo c =
      (DrizzleContactRepository.ativoCond ativo c && specContactMatches store c term) := by
  by_cases he : term = emptyStr
  · subst he
    have h0 : foldStr emptyStr = [] := rfl
    simp [DrizzleContactRepository.rowCondition, specContactMatches, h0, inclL_nil]
  · have he' : (term == emptyStr) = false := by simpa using he
    have hiA := fun v => ilike_eq_inclL v term hm
    cases hcomp : c.complemento with
    | none =>
      simp [DrizzleContactRepository.rowCondition, DrizzleContactRepository.matchesSearch,
        specContactMatches, DrizzleContactRepository.ilikeOpt, he', hcomp, hiA, Bool.or_assoc]
    | some v =>
      simp [DrizzleContactRepository.rowCondition, DrizzleContactRepository.matchesSearch,
        specContactMatches, DrizzleContactRepository.ilikeOpt, he', hcomp, hiA, Bool.or_assoc]

/- ===================================================================
   Concrete sample data used by witnesses and counterexamples
   =================================================================== -/

def zipSP : String := "01310100"

def ruaA : String := "Rua A"

def numDez : String := "10"

def bairroCentro : String := "Centro"

def cidadeSaoPaulo : String := "São Paulo"

def estadoSP : String := "SP"

def nomeAna : String := "Ana"

def nomeBia : String := "Bia"

def nomeAb : String := "ab"

def emailAna : String := "ana@x.com"

def emailBia : String := "bia@x.com"

def idA : String := "a1"

def idB : String := "b2"

def idC : String := "c3"

def pid1 : String := "p1"

def telNum : String := "11987654321"

def strUnderscore : String := "_"

def termPaulo : String := "paulo"

/-- Build a contact row with fixed address fields. -/
def mkContact (id nome email : String) (ativo : Bool) (createdAt : Nat) : ContactRow :=
  { id := id, nome := nome, email := email, codigoZip := zipSP,
    endereco := ruaA, numero := numDez, bairro := bairroCentro,
    cidade := cidadeSaoPaulo, estado := estadoSP, complemento := none,
    ativo := ativo, createdAt := createdAt, updatedAt := createdAt }

/-- A single active contact whose text fields contain no underscore. -/
def contactAb : ContactRow := mkContact idA nomeAb emailAna true 1

def cexStore2 : Store := { contatos := [contactAb], telefones := [] }

/-- C2 counterexample: with the search term `_` the repository returns
the contact `contactAb` (the unescaped `ILIKE '%_%'` pattern matches
any non-empty field), although `_` is not a case-insensitive substring
of any of its fields or phone numbers, so the list operation does not
return exactly the contacts satisfying the claimed disjunction. -/
theorem search_wildcard_breaks_substring_semantics :
    DrizzleContactRepository.list cexStore2 (some strUnderscore) none 10 0 =
      some ([contactAb], 1) ∧
      specContactMatches cexStore2 contactAb strUnderscore = false := by
  decide

/-- C2 (amended): for every search term free of the SQL LIKE
metacharacters `%`, `_` and the escape character `\`, the list
operation returns exactly the contacts satisfying the claimed
disjunction (case-insensitive substring of the eight text fields, a
null complement never matching, or of the number of some phone owned
by the contact), conjoined with the active filter when supplied:
the page window and the total count are those of the
specification-level filter. -/
theorem list_search_is_substring_filter
    (store : Store) (term : String) (ativo : Option Bool) (limit : Nat) (offset : Int)
    (hm : noMeta term = true) (ho : 0 ≤ offset) :
    DrizzleContactRepository.list store (some term) ativo limit offset =
      some (((specFilter store term ativo).drop offset.toNat).take limit,
        (specFilter store term ativo).length) := by
  unfold DrizzleContactRepository.list specFilter
  rw [if_neg (by omega : ¬ offset < 0)]
  have hfun : DrizzleContactRepository.rowCondition store (some term) ativo =
      fun c => DrizzleContactRepository.ativoCond ativo c && specContactMatches store c term :=
    funext (rowCondition_eq_spec store term ativo hm)
  rw [hfun]

/-- An active contact in São Paulo owning one phone. -/
def contactSP : ContactRow := mkContact idA nomeAna emailAna true 1

def phoneSP : PhoneRow := { id := pid1, numero := telNum, contatoId := idA }

def storeW2 : Store := { contatos := [contactSP], telefones := [phoneSP] }

/-- C2 witness: the term "paulo" is metacharacter-free and the search
returns exactly the specification-level filter, which does contain the
contact with city "São Paulo". -/
theorem list_search_is_substring_filter_witness :
    noMeta termPaulo = true ∧
      specFilter storeW2 termPaulo none = [contactSP] ∧
      DrizzleContactRepository.list storeW2 (some termPaulo) none 10 0 =
        some (((specFilter storeW2 termPaulo none).drop ((0 : Int).toNat)).take 10,
          (specFilter storeW2 termPaulo none).length) :=
  ⟨by decide, by decide,
   list_search_is_substring_filter storeW2 termPaulo none 10 0 (by decide) (by decide)⟩

/- ===================================================================
   C4: getWithWeather
   =================================================================== -/

/-- C4: for every store, weather provider and id, if the contact is
absent or inactive then `getWithWeather` reports CONTACT_NOT_FOUND and
the weather provider is never invoked; if the contact exists and is
active, the result carries the contact data with a weather field
holding whatever outcome the provider produced (so a weather-lookup
failure is embedded as data rather than failing the request). -/
theorem getWithWeather_notFound_or_embeds_weather
    (store : Store) (weatherProvider : String → WeatherOutcome) (id : String) :
    ((DrizzleContactRepository.findById store id = none ∨
        (∃ c, DrizzleContactRepository.findById store id = some c ∧ c.ativo = false)) →
      ContactService.getWithWeather store weatherProvider id =
        (ContactService.GetWithWeatherResult.contactNotFound, false)) ∧
      (∀ c, DrizzleContactRepository.findById store id = some c → c.ativo = true →
        ContactService.getWithWeather store weatherProvider id =
          (ContactService.GetWithWeatherResult.ok c
            (DrizzleContactRepository.phonesOf store c.id) (weatherProvider c.cidade),
           true)) := by
  constructor
  · rintro (h | ⟨c, hc, hin⟩)
    · simp [ContactService.getWithWeather, h]
    · simp [ContactService.getWithWeather, hc, hin]
  · intro c hc ha
    simp [ContactService.getWithWeather, hc, ha]

/-- A weather provider that always fails. -/
def provUnavailable : String → WeatherOutcome :=
  fun _ => WeatherOutcome.err .WEATHER_SERVICE_UNAVAILABLE msgUnavailable

/-- An inactive (soft-deleted) contact. -/
def contactBiaInactive : ContactRow := mkContact idB nomeBia emailBia false 2

def storeC4 : Store :=
  { contatos := [contactSP, contactBiaInactive], telefones := [phoneSP] }

/-- C4 witness: an inactive id and an absent id both give
CONTACT_NOT_FOUND without a provider call; an active id returns the
contact with the provider's failure embedded in the weather field. -/
theorem getWithWeather_notFound_or_embeds_weather_witness :
    ContactService.getWithWeather storeC4 provUnavailable idB =
      (ContactService.GetWithWeatherResult.contactNotFound, false) ∧
      ContactService.getWithWeather storeC4 provUnavailable idC =
        (ContactService.GetWithWeatherResult.contactNotFound, false) ∧
      ContactService.getWithWeather storeC4 provUnavailable idA =
        (ContactService.GetWithWeatherResult.ok contactSP
          (DrizzleContactRepository.phonesOf storeC4 contactSP.id)
          (provUnavailable contactSP.cidade), true) :=
  ⟨(getWithWeather_notFound_or_embeds_weather storeC4 provUnavailable idB).1
      (Or.inr ⟨contactBiaInactive, by decide, by decide⟩),
   (getWithWeather_notFound_or_embeds_weather storeC4 provUnavailable idC).1
      (Or.inl (by decide)),
   (getWithWeather_notFound_or_embeds_weather storeC4 provUnavailable idA).2
      contactSP (by decide) (by decide)⟩

/- ===================================================================
   C7: soft delete idempotence
   =================================================================== -/

/-- On a store whose contact is already inactive, `softDelete` reports
CONTACT_ALREADY_INACTIVE and leaves the store unchanged. -/
theorem softDelete_already_inactive (store : Store) (now : Nat) (id : String)
    (c : ContactRow)
    (hfind : DrizzleContactRepository.findById store id = some c)
    (hin : c.ativo = false) :
    ContactService.softDelete store now id =
      (ContactService.SoftDeleteResult.alreadyInactive, store) := by
  simp [ContactService.softDelete, hfind, hin]

/-- C7: for every contact that exists with `ativo = true`, the first
soft delete returns success and stores the contact with
`ativo = false` and `updatedAt` refreshed to the first call's clock;
the second soft delete returns CONTACT_ALREADY_INACTIVE and leaves the
store entirely unchanged (in particular `updatedAt` is not refreshed
again). -/
theorem softDelete_twice_idempotent
    (store : Store) (now1 now2 : Nat) (id : String) (c : ContactRow)
    (hfind : DrizzleContactRepository.findById store id = some c)
    (hact : c.ativo = true) :
    (ContactService.softDelete store now1 id).1 =
        ContactService.SoftDeleteResult.success id ∧
      DrizzleContactRepository.findById (ContactService.softDelete store now1 id).2 id =
        some { c with ativo := false, updatedAt := now1 } ∧
      ContactService.softDelete (ContactService.softDelete store now1 id).2 now2 id =
        (ContactService.SoftDeleteResult.alreadyInactive,
         (ContactService.softDelete store now1 id).2) := by
  have hfindU : List.find? (fun d : ContactRow => d.id == id) store.contatos = some c := hfind
  have hidc : (c.id == id) = true := by
    have h0 := List.find?_some hfindU
    simpa using h0
  have hmem : c ∈ store.contatos := List.mem_of_find?_eq_some hfindU
  have hany : store.contatos.any (fun d => d.id == id) = true :=
    List.any_eq_true.mpr ⟨c, hmem, hidc⟩
  have hfirst : ContactService.softDelete store now1 id =
      (ContactService.SoftDeleteResult.success id,
       { store with contatos := store.contatos.map (fun d =>
           if d.id == id then { d with ativo := false, updatedAt := now1 } else d) }) := by
    simp [ContactService.softDelete, DrizzleContactRepository.softDelete, hfind, hact, hany]
  have hidp : c.id = id := by simpa using hidc
  have hpf : ((fun d : ContactRow => d.id == id) ∘ (fun d : ContactRow =>
      if d.id == id then { d with ativo := false, updatedAt := now1 } else d)) =
      (fun d : ContactRow => d.id == id) := by
    funext d
    by_cases h : d.id = id <;> simp [h]
  have hfind2 : DrizzleContactRepository.findById
      { store with contatos := store.contatos.map (fun d =>
          if d.id == id then { d with ativo := false, updatedAt := now1 } else d) } id =
      some { c with ativo := false, updatedAt := now1 } := by
    unfold DrizzleContactRepository.findById
    rw [List.find?_map, hpf, hfindU]
    simp [hidp]
  refine ⟨by rw [hfirst], ?_, ?_⟩
  · rw [hfirst]
    exact hfind2
  · rw [hfirst]
    exact softDelete_already_inactive _ now2 id _ hfind2 rfl

def storeC7 : Store := { contatos := [contactSP], telefones := [] }

/-- C7 witness: deleting the active contact twice (clocks 5 then 9)
returns success then CONTACT_ALREADY_INACTIVE, with `updatedAt`
refreshed only by the first call. -/
theorem softDelete_twice_idempotent_witness :
    (ContactService.softDelete storeC7 5 idA).1 =
        ContactService.SoftDeleteResult.success idA ∧
      DrizzleContactRepository.findById (ContactService.softDelete storeC7 5 idA).2 idA =
        some { contactSP with ativo := false, updatedAt := 5 } ∧
      ContactService.softDelete (ContactService.softDelete storeC7 5 idA).2 9 idA =
        (ContactService.SoftDeleteResult.alreadyInactive,
         (ContactService.softDelete storeC7 5 idA).2) :=
  softDelete_twice_idempotent storeC7 5 9 idA contactSP (by decide) (by decide)

/- ===================================================================
   C6: update uniqueness check
   =================================================================== -/

/-- The filtered, ordered set a list call ranges over (before
pagination): ordered by `createdAt`, filtered by the WHERE clause
built from the search term and the `ativo === "true"` translation of
the string filter. -/
def filteredContacts (store : Store) (search : Option String) (ativo : Option String) :
    List ContactRow :=
  (DrizzleContactRepository.orderByCreatedAt store.contatos).filter
    (DrizzleContactRepository.rowCondition store search
      (ativo.map (fun s => s == ContactService.strTrue)))

/-- Evaluation of `ContactService.list` for explicit page and limit,
whenever the computed offset is non-negative. -/
theorem list_eval (store : Store) (search : Option String) (ativo : Option String)
    (page limit : Nat)
    (h : 0 ≤ ContactService.listOffset page (ContactService.capLimit limit)) :
    ContactService.list store
        { search := search, ativo := ativo, page := some page, limit := some limit } =
      some { contacts := ((filteredContacts store search ativo).drop
               (ContactService.listOffset page (ContactService.capLimit limit)).toNat).take
               (ContactService.capLimit limit),
             pagination :=
               { currentPage := page,
                 totalPages := totalPagesJS (filteredContacts store search ativo).length
                   (ContactService.capLimit limit),
                 totalItems := (filteredContacts store search ativo).length,
                 itemsPerPage := ContactService.capLimit limit,
                 hasNextPage := ltJsCeil page (totalPagesJS
                   (filteredContacts store search ativo).length
                   (ContactService.capLimit limit)),
                 hasPrevPage := decide (1 < page) } } := by
  have hnneg : ¬ (ContactService.listOffset page (ContactService.capLimit limit) < 0) :=
    not_lt.mpr h
  unfold ContactService.list DrizzleContactRepository.list filteredContacts
  simp only [Option.getD_some]
  rw [if_neg hnneg]

/-- Membership in a stable insertion is membership in the inserted
element or the old list. -/
theorem mem_insertByCreatedAt {x c : ContactRow} {l : List ContactRow} :
    x ∈ DrizzleContactRepository.insertByCreatedAt c l ↔ x = c ∨ x ∈ l := by
  induction l with
  | nil => simp [DrizzleContactRepository.insertByCreatedAt]
  | cons d t ih =>
    unfold DrizzleContactRepository.insertByCreatedAt
    split_ifs
    · simp [List.mem_cons]
    · simp only [List.mem_cons, ih]
      tauto

/-- Stable insertion preserves sortedness by `createdAt`. -/
theorem pairwise_insertByCreatedAt (c : ContactRow) (l : List ContactRow)
    (h : l.Pairwise (fun a b => a.createdAt ≤ b.createdAt)) :
    (DrizzleContactRepository.insertByCreatedAt c l).Pairwise
      (fun a b => a.createdAt ≤ b.createdAt) := by
  induction l with
  | nil => simp [DrizzleContactRepository.insertByCreatedAt]
  | cons d t ih =>
    rcases List.pairwise_cons.mp h with ⟨hd, ht⟩
    unfold DrizzleContactRepository.insertByCreatedAt
    split_ifs with hlt
    · refine List.pairwise_cons.mpr ⟨?_, h⟩
      intro x hx
      rcases List.mem_cons.mp hx with rfl | hx
      · omega
      · exact le_trans (le_of_lt hlt) (hd x hx)
    · refine List.pairwise_cons.mpr ⟨?_, ih ht⟩
      intro x hx
      rcases mem_insertByCreatedAt.mp hx with rfl | hx
      · omega
      · exact hd x hx

/-- The listing order is sorted by `createdAt` ascending. -/
theorem pairwise_orderByCreatedAt (l : List ContactRow) :
    (DrizzleContactRepository.orderByCreatedAt l).Pairwise
      (fun a b => a.createdAt ≤ b.createdAt) := by
  induction l with
  | nil => simp [DrizzleContactRepository.orderByCreatedAt]
  | cons c t ih => exact pairwise_insertByCreatedAt c _ ih

/- ===================================================================
   C9: default active filter
   =================================================================== -/

def respC9 : ContactService.ListResponse :=
  { contacts := [contactBiaInactive],
    pagination := { currentPage := 1, totalPages := JsCeil.fin 1, totalItems := 1,
                    itemsPerPage := 10, hasNextPage := false, hasPrevPage := false } }

def storeC9 : Store := { contatos := [contactBiaInactive], telefones := [] }

/-- C9 counterexample: called directly without an `ativo` parameter,
`ContactService.list` applies NO active filter (an absent parameter is
translated to an absent repository filter, not to "active only"): a
soft-deleted contact is returned in the page. -/
theorem service_list_applies_no_default_active_filter :
    ContactService.list storeC9
        { search := none, ativo := none, page := some 1, limit := some 10 } =
      some respC9 ∧ contactBiaInactive.ativo = false := by
  decide

/-- C9 (amended): the "active only" default is applied by the HTTP
layer's query schema, not by the service: when a list request reaches
the endpoint without an `ativo` query value, the schema defaults it to
the string "true", the service translates it to the boolean filter,
and every contact in the returned page has `ativo = true`. -/
theorem endpoint_list_defaults_to_active_only
    (store : Store) (search : Option String) (page limit : Option Nat)
    (resp : ContactService.ListResponse)
    (h : listEndpoint store
        { search := search, ativo := none, page := page, limit := limit } = some resp) :
    ∀ c ∈ resp.contacts, c.ativo = true := by
  intro c hc
  unfold listEndpoint ContactService.list at h
  simp only [Option.getD_none, Option.map_some', beq_self_eq_true] at h
  unfold DrizzleContactRepository.list at h
  split_ifs at h with hoff
  simp only [Option.some.injEq] at h
  subst h
  simp only at hc
  have h1 := List.mem_of_mem_take hc
  have h2 := List.mem_of_mem_drop h1
  have h3 := List.of_mem_filter h2
  unfold DrizzleContactRepository.rowCondition DrizzleContactRepository.ativoCond at h3
  rw [Bool.and_eq_true] at h3
  rcases h3 with ⟨h4, _⟩
  simpa using h4

def respC9w : ContactService.ListResponse :=
  { contacts := [contactSP],
    pagination := { currentPage := 1, totalPages := JsCeil.fin 1, totalItems := 1,
                    itemsPerPage := 10, hasNextPage := false, hasPrevPage := false } }

/-- C9 witness: on a store holding one active and one inactive
contact, the endpoint without an `ativo` query value returns only the
active contact, and the theorem yields `ativo = true` for it. -/
theorem endpoint_list_defaults_to_active_only_witness :
    listEndpoint storeC4
        { search := none, ativo := none, page := some 1, limit := some 10 } =
      some respC9w ∧ contactSP ∈ respC9w.contacts ∧ contactSP.ativo = true :=
  ⟨by decide, by decide,
   endpoint_list_defaults_to_active_only storeC4 none (some 1) (some 10) respC9w
     (by decide) contactSP (by decide)⟩

/- ===================================================================
   C10: unguarded zero limit and zero page
   =================================================================== -/

/-- C10: the pagination normalization bounds the limit only from above
(`min` with 100)—a below-100 value, in particular 0, passes through
unchanged; with accepted input `limit = 0` the list call still
succeeds and its `totalPages = Math.ceil(totalItems / 0)` is the IEEE
`Infinity` (no finite value) whenever `totalItems > 0`, making
`hasNextPage = page < totalPages` hold for every page; and with
accepted input `page = 0` the computed offset `(page - 1) * limit` is
negative for every positive limit. -/
theorem list_zero_limit_and_zero_page_unguarded :
    (∀ l : Nat, ContactService.capLimit l ≤ 100 ∧ ContactService.capLimit l ≤ l ∧
        (l ≤ 100 → ContactService.capLimit l = l)) ∧
      ContactService.capLimit 0 = 0 ∧
      (∀ (store : Store) (search : Option String) (ativo : Option String)
          (page : Nat) (resp : ContactService.ListResponse),
        ContactService.list store
            { search := search, ativo := ativo, page := some page, limit := some 0 } =
          some resp →
        resp.pagination.itemsPerPage = 0 ∧
          (0 < resp.pagination.totalItems →
            resp.pagination.totalPages = JsCeil.posInf ∧
              resp.pagination.hasNextPage = true)) ∧
      (∀ (store : Store) (search : Option String) (ativo : Option String) (page : Nat),
        (ContactService.list store
          { search := search, ativo := ativo, page := some page, limit := some 0 }).isSome
          = true) ∧
      (∀ limit : Nat, 0 < limit → ContactService.listOffset 0 limit < 0) := by
  have hoff0 : ∀ page : Nat, ContactService.listOffset page (ContactService.capLimit 0) = 0 := by
    intro page
    simp [ContactService.listOffset, ContactService.capLimit]
  have heval : ∀ (store : Store) (search : Option String) (ativo : Option String)
      (page : Nat),
      ContactService.list store
          { search := search, ativo := ativo, page := some page, limit := some 0 } =
        some { contacts := ((filteredContacts store search ativo).drop
                 (ContactService.listOffset page (ContactService.capLimit 0)).toNat).take
                 (ContactService.capLimit 0),
               pagination :=
                 { currentPage := page,
                   totalPages := totalPagesJS (filteredContacts store search ativo).length
                     (ContactService.capLimit 0),
                   totalItems := (filteredContacts store search ativo).length,
                   itemsPerPage := ContactService.capLimit 0,
                   hasNextPage := ltJsCeil page (totalPagesJS
                     (filteredContacts store search ativo).length
                     (ContactService.capLimit 0)),
                   hasPrevPage := decide (1 < page) } } :=
    fun store search ativo page =>
      list_eval store search ativo page 0 (le_of_eq (hoff0 page).symm)
  refine ⟨?_, rfl, ?_, ?_, ?_⟩
  · intro l
    unfold ContactService.capLimit
    exact ⟨Nat.min_le_right l 100, Nat.min_le_left l 100, fun h => Nat.min_eq_left h⟩
  · intro store search ativo page resp h
    rw [heval store search ativo page, Option.some.injEq] at h
    subst h
    refine ⟨rfl, fun hpos => ?_⟩
    have hpos' : 0 < (filteredContacts store search ativo).length := hpos
    have hT : totalPagesJS (filteredContacts store search ativo).length
        (ContactService.capLimit 0) = JsCeil.posInf := by
      rw [show ContactService.capLimit 0 = 0 from rfl]
      unfold totalPagesJS
      rw [if_pos rfl, if_neg (by omega : ¬ (filteredContacts store search ativo).length = 0)]
    refine ⟨hT, ?_⟩
    show ltJsCeil page (totalPagesJS (filteredContacts store search ativo).length
      (ContactService.capLimit 0)) = true
    rw [hT]
    rfl
  · intro store search ativo page
    rw [heval store search ativo page]
    rfl
  · intro limit hl
    unfold ContactService.listOffset
    simp only [Nat.cast_zero, zero_sub, neg_mul, one_mul, Left.neg_neg_iff]
    exact_mod_cast hl

def respC10 : ContactService.ListResponse :=
  { contacts := [],
    pagination := { currentPage := 7, totalPages := JsCeil.posInf, totalItems := 1,
                    itemsPerPage := 0, hasNextPage := true, hasPrevPage := true } }

/-- C10 witness: on a one-contact store, `limit = 0` is accepted and
produces `totalPages = Infinity` with `hasNextPage` true even at page
7; a sub-100 limit passes through uncapped; and `page = 0` with the
default limit 10 computes the negative offset `-10`. -/
theorem list_zero_limit_and_zero_page_unguarded_witness :
    ContactService.list storeC7
        { search := none, ativo := none, page := some 7, limit := some 0 } =
      some respC10 ∧
      respC10.pagination.itemsPerPage = 0 ∧
      respC10.pagination.totalPages = JsCeil.posInf ∧
      respC10.pagination.hasNextPage = true ∧
      ContactService.capLimit 50 = 50 ∧
      ContactService.listOffset 0 10 < 0 := by
  have h := list_zero_limit_and_zero_page_unguarded
  exact ⟨by decide,
    (h.2.2.1 storeC7 none none 7 respC10 (by decide)).1,
    ((h.2.2.1 storeC7 none none 7 respC10 (by decide)).2 (by decide)).1,
    ((h.2.2.1 storeC7 none none 7 respC10 (by decide)).2 (by decide)).2,
    (h.1 50).2.2 (by decide),
    h.2.2.2.2 10 (by decide)⟩

/- ===================================================================
   C5: pagination
   =================================================================== -/

/-- C5: `ContactService.list` defaults the page to 1 and the limit to
10; the filtered set is ordered by `createdAt` ascending; for every
page ≥ 1 the returned window is `[offset, offset + limit)` with
`offset = (page - 1) * limit` over the filtered set (the limit capped
at 100), `totalItems` counts the filtered set before pagination,
`hasNextPage` holds iff `page < totalPages` and `hasPrevPage` iff
`page > 1`; for every positive limit `totalPages` is the exact ceiling
of `totalItems / limit`; and when 15 contacts match at limit 5, pages
1..3 partition the filtered set with no overlap and no gaps, the page
flags match the boundaries, and a requested limit of 150 is capped to
100. -/
theorem list_pagination_spec (store : Store) (search : Option String) (ativo : Option String) :
    (ContactService.list store
        { search := search, ativo := ativo, page := none, limit := none } =
      ContactService.list store
        { search := search, ativo := ativo, page := some 1, limit := some 10 }) ∧
      (filteredContacts store search ativo).Pairwise
        (fun a b => a.createdAt ≤ b.createdAt) ∧
      (∀ page limit : Nat, 1 ≤ page →
        ContactService.list store
            { search := search, ativo := ativo, page := some page, limit := some limit } =
          some { contacts := ((filteredContacts store search ativo).drop
                   ((page - 1) * ContactService.capLimit limit)).take
                   (ContactService.capLimit limit),
                 pagination :=
                   { currentPage := page,
                     totalPages := totalPagesJS (filteredContacts store search ativo).length
                       (ContactService.capLimit limit),
                     totalItems := (filteredContacts store search ativo).length,
                     itemsPerPage := ContactService.capLimit limit,
                     hasNextPage := ltJsCeil page (totalPagesJS
                       (filteredContacts store search ativo).length
                       (ContactService.capLimit limit)),
                     hasPrevPage := decide (1 < page) } }) ∧
      (∀ n limit : Nat, 1 ≤ limit → totalPagesJS n limit = JsCeil.fin (n ⌈/⌉ limit)) ∧
      ((filteredContacts store search ativo).length = 15 →
        ((filteredContacts store search ativo).drop ((1 - 1) * 5)).take 5 ++
            ((filteredContacts store search ativo).drop ((2 - 1) * 5)).take 5 ++
            ((filteredContacts store search ativo).drop ((3 - 1) * 5)).take 5 =
          filteredContacts store search ativo ∧
          totalPagesJS (filteredContacts store search ativo).length 5 = JsCeil.fin 3 ∧
          ltJsCeil 1 (JsCeil.fin 3) = true ∧
          ltJsCeil 2 (JsCeil.fin 3) = true ∧
          ltJsCeil 3 (JsCeil.fin 3) = false ∧
          ContactService.capLimit 150 = 100) := by
  refine ⟨rfl, List.Pairwise.filter _ (pairwise_orderByCreatedAt _), ?_, ?_, ?_⟩
  · intro page limit hpage
    have h2 : ContactService.listOffset page (ContactService.capLimit limit) =
        (((page - 1) * ContactService.capLimit limit : ℕ) : ℤ) := by
      unfold ContactService.listOffset
      rw [Nat.cast_mul, Nat.cast_sub hpage, Nat.cast_one]
    have h3 : (ContactService.listOffset page (ContactService.capLimit limit)).toNat =
        (page - 1) * ContactService.capLimit limit := by
      rw [h2, Int.toNat_natCast]
    have h4 : 0 ≤ ContactService.listOffset page (ContactService.capLimit limit) := by
      rw [h2]
      exact Int.natCast_nonneg _
    rw [list_eval store search ativo page limit h4, h3]
  · intro n limit hl
    unfold totalPagesJS
    rw [if_neg (by omega : ¬ limit = 0), Nat.ceilDiv_eq_add_pred_div]
  · intro h15
    refine ⟨?_, by rw [h15]; decide, by decide, by decide, by decide, rfl⟩
    have e1 : ((filteredContacts store search ativo).drop 5).drop 5 =
        (filteredContacts store search ativo).drop 10 := by
      simp [List.drop_drop]
    have e2 : ((filteredContacts store search ativo).drop 10).take 5 =
        ((filteredContacts store search ativo).drop 5).drop 5 := by
      rw [e1]
      exact List.take_of_length_le (by simp [h15])
    norm_num [List.drop_zero]
    rw [e2, List.take_append_drop 5
      ((filteredContacts store search ativo).drop 5), List.take_append_drop 5
      (filteredContacts store search ativo)]

/-- Fifteen active contacts with ascending creation timestamps. -/
def store15 : Store :=
  { contatos := (List.range 15).map (fun i => mkContact idA nomeAna emailAna true i),
    telefones := [] }

/-- C5 witness: with 15 matching contacts, page 2 at limit 5 returns
the window `[5, 10)`, pages 1..3 concatenate back to the filtered set,
and limit 150 is capped to 100. -/
theorem list_pagination_spec_witness :
    (filteredContacts store15 none none).length = 15 ∧
      ContactService.list store15
          { search := none, ativo := none, page := some 2, limit := some 5 } =
        some { contacts := ((filteredContacts store15 none none).drop
                 ((2 - 1) * ContactService.capLimit 5)).take (ContactService.capLimit 5),
               pagination :=
                 { currentPage := 2,
                   totalPages := totalPagesJS (filteredContacts store15 none none).length
                     (ContactService.capLimit 5),
                   totalItems := (filteredContacts store15 none none).length,
                   itemsPerPage := ContactService.capLimit 5,
                   hasNextPage := ltJsCeil 2 (totalPagesJS
                     (filteredContacts store15 none none).length (ContactService.capLimit 5)),
                   hasPrevPage := decide (1 < 2) } } ∧
      ((filteredContacts store15 none none).drop ((1 - 1) * 5)).take 5 ++
          ((filteredContacts store15 none none).drop ((2 - 1) * 5)).take 5 ++
          ((filteredContacts store15 none none).drop ((3 - 1) * 5)).take 5 =
        filteredContacts store15 none none ∧
      ContactService.capLimit 150 = 100 := by
  have h := list_pagination_spec store15 none none
  have h15 : (filteredContacts store15 none none).length = 15 := by rfl
  exact ⟨h15, h.2.2.1 2 5 (by decide), (h.2.2.2.2 h15).1, (h.2.2.2.2 h15).2.2.2.2.2⟩
